import Mathlib

/-!
Verification of the Seat Inventory & Booking Engine of `src/Airline.cpp`
(class `Flight`, lines 475–830).

The C++ code is shallowly embedded: `std::string` becomes `List Char`,
C++ `int` becomes `Int` where negative values can arise (decoded rows,
`availableSeats`) and `Nat` where they cannot (capacities, column counts,
grid sizes), `std::vector<std::vector<bool>>` becomes `List (List Bool)`,
and a thrown `ValidationException`/`BookingException` becomes the
`Except` error case.  Each member function that wraps its body in
`try { ... } catch (...) { printErrorMessage(...); return false; }`
is embedded twice: an `...E` function for the try-body (errors delivered
as `Except.error`) and a wrapper returning the caught boolean result
together with the list of messages printed by `printErrorMessage`.
-/

namespace Airline

/-- The two exception classes of Airline.cpp (lines 195–213):
`ValidationException` and `BookingException`, each carrying a message. -/
inductive Exc where
  | validation : String → Exc
  | booking : String → Exc
deriving DecidableEq, Repr

/-- `e.what()` of either exception class returns the stored message. -/
def excMessage : Exc → String
  | .validation m => m
  | .booking m => m

instance {ε α : Type} [DecidableEq ε] [DecidableEq α] : DecidableEq (Except ε α) :=
  fun a b =>
    match a, b with
    | .ok x, .ok y =>
      if h : x = y then .isTrue (by rw [h]) else .isFalse (by simp [h])
    | .error x, .error y =>
      if h : x = y then .isTrue (by rw [h]) else .isFalse (by simp [h])
    | .ok _, .error _ => .isFalse (by simp)
    | .error _, .ok _ => .isFalse (by simp)

/-- The whitespace predicate used by `std::stoi` (C `isspace`, default
locale): space, tab, newline, vertical tab, form feed, carriage return. -/
def isCppSpace (c : Char) : Bool :=
  c = ' ' || c = '\t' || c = '\n' || c = '\x0b' || c = '\x0c' || c = '\r'

/-- Value of a run of decimal digit characters, most significant first. -/
def digitsVal (l : List Char) : Nat :=
  l.foldl (fun acc c => acc * 10 + (c.toNat - '0'.toNat)) 0

/-- Parse a maximal leading digit run; `none` if there is no digit,
matching `std::stoi` raising `invalid_argument`. -/
def stoiDigits (l : List Char) : Option Nat :=
  let ds := l.takeWhile Char.isDigit
  if ds.isEmpty then none else some (digitsVal ds)

/-- `INT_MAX` of the platform's 32-bit `int`, the result type of
`std::stoi`. -/
def cppIntMax : Int := 2147483647

/-- `INT_MIN` of the platform's 32-bit `int`. -/
def cppIntMin : Int := -2147483648

/-- The two exceptions `std::stoi` can raise: `invalid_argument` when no
digit follows the optional whitespace and sign, `out_of_range` when the
parsed value does not fit in `int`. -/
inductive StoiExc where
  | invalidArgument : StoiExc
  | outOfRange : StoiExc
deriving DecidableEq, Repr

/-- Model of `std::stoi` on the argument string: skip leading whitespace,
an optional sign, then parse a maximal digit prefix.  No digit raises
`invalid_argument`; a parsed value outside `[INT_MIN, INT_MAX]` raises
`out_of_range`; trailing non-digit characters are ignored, exactly as
`stoi` ignores them. -/
def stoi (s : List Char) : Except StoiExc Int :=
  let s1 := s.dropWhile isCppSpace
  let parsed : Option Int :=
    if s1.headD ' ' = '-' then (stoiDigits s1.tail).map (fun n => -(n : Int))
    else if s1.headD ' ' = '+' then (stoiDigits s1.tail).map (fun n => (n : Int))
    else (stoiDigits s1).map (fun n => (n : Int))
  match parsed with
  | none => .error .invalidArgument
  | some v => if v < cppIntMin ∨ cppIntMax < v then .error .outOfRange else .ok v

/-- C `toupper` on ASCII (default locale): lowercase letters are mapped
to uppercase, every other character is unchanged. -/
def cppToUpper (c : Char) : Char :=
  if 'a' ≤ c ∧ c ≤ 'z' then Char.ofNat (c.toNat - 32) else c

/-- The layout derived from capacity: `seatsPerRow` and `totalColumns`
fields of `Flight`. -/
structure Layout where
  seatsPerRow : Nat
  totalColumns : Nat
deriving DecidableEq, Repr

/-- `Flight::calculateSeatLayout` (Airline.cpp lines 506–519). -/
def calculateSeatLayout (capacity : Nat) : Layout :=
  if capacity < 60 then ⟨2, 5⟩
  else if capacity < 150 then ⟨3, 7⟩
  else ⟨5, 11⟩

/-- The aisle-column test repeated throughout Airline.cpp (e.g. lines
573–575): column 2 in the 5-column tier, column 3 in the 7-column tier,
columns 3 and 8 in the 11-column tier. -/
def isAisle (totalColumns j : Nat) : Bool :=
  (totalColumns == 5 && j == 2) || (totalColumns == 7 && j == 3) ||
    (totalColumns == 11 && (j == 3 || j == 8))

/-- A full row of `initializeSeatMap` (lines 556–567): `resize(totalColumns,
false)` followed by setting the aisle columns to `true`. -/
def fullRow (totalColumns : Nat) : List Bool :=
  (List.range totalColumns).map (fun j => isAisle totalColumns j)

/-- First while loop of the partial-row branch (lines 538–542):
`while (col < seatsPerRow && seatsLeft > 0)` write `false`, advance.
The recursion is on `seatsLeft`, which the loop body decrements. -/
def partialLoop1 (seatsPerRow : Nat) (row : List Bool) (col : Nat) :
    Nat → List Bool × Nat × Nat
  | 0 => (row, col, 0)
  | sl + 1 =>
    if col < seatsPerRow then
      partialLoop1 seatsPerRow (row.set col false) (col + 1) sl
    else (row, col, sl + 1)

/-- Second while loop of the partial-row branch (lines 546–550):
`while (col < totalColumns && seatsLeft > 0)` write `false`, advance.
The recursion is on `seatsLeft`, which the loop body decrements. -/
def partialLoop2 (totalColumns : Nat) (row : List Bool) (col : Nat) :
    Nat → List Bool × Nat × Nat
  | 0 => (row, col, 0)
  | sl + 1 =>
    if col < totalColumns then
      partialLoop2 totalColumns (row.set col false) (col + 1) sl
    else (row, col, sl + 1)

/-- Body of the third while loop (lines 552–555), unrolled on the exact
iteration count `totalColumns - col`: write `true`, advance. -/
def partialLoop3Aux (row : List Bool) (col : Nat) : Nat → List Bool
  | 0 => row
  | k + 1 => partialLoop3Aux (row.set col true) (col + 1) k

/-- Third while loop of the partial-row branch (lines 552–555):
`while (col < totalColumns)` write `true`, advance.  The loop runs
exactly `totalColumns - col` iterations. -/
def partialLoop3 (totalColumns : Nat) (row : List Bool) (col : Nat) :
    List Bool :=
  partialLoop3Aux row col (totalColumns - col)

/-- The partial-row branch of `initializeSeatMap` (lines 532–555): start
from an all-`false` row, run the first loop from column 0, skip one
column (`col++`, line 544), run the second and third loops. -/
def partialRow (totalColumns seatsPerRow remainingSeats : Nat) : List Bool :=
  let r1 := partialLoop1 seatsPerRow (List.replicate totalColumns false) 0 remainingSeats
  let r2 := partialLoop2 totalColumns r1.1 (r1.2.1 + 1) r1.2.2
  partialLoop3 totalColumns r2.1 r2.2.1

/-- The grid built by the row loop of `initializeSeatMap` (lines 521–568),
before the seat-count recount and excess correction. -/
def rawSeatMap (capacity : Nat) (l : Layout) : List (List Bool) :=
  let seatsPerFullRow := l.totalColumns - 1
  let fullRows := capacity / seatsPerFullRow
  let remainingSeats := capacity % seatsPerFullRow
  let totalRows := fullRows + (if remainingSeats > 0 then 1 else 0)
  (List.range totalRows).map (fun i =>
    if i = totalRows - 1 ∧ remainingSeats > 0 then
      partialRow l.totalColumns l.seatsPerRow remainingSeats
    else fullRow l.totalColumns)

/-- Available (non-aisle, unoccupied) cells of one row, as counted by the
recount loop of `initializeSeatMap` (lines 570–583): skip aisle columns,
count `false` cells. -/
def countRowAvailable (totalColumns : Nat) (row : List Bool) : Nat :=
  (row.enum.filter (fun p => !isAisle totalColumns p.1 && !p.2)).length

/-- Total available-cell count over the grid (recount loop, lines 570–583). -/
def countAvailable (totalColumns : Nat) (g : List (List Bool)) : Nat :=
  (g.map (countRowAvailable totalColumns)).sum

/-- Inner loop of the excess correction (lines 589–600): walk one row
from its last column backward while `excessSeats > 0`, skip aisle
columns, flip `false` cells to `true`.  `k` is the count of columns still
to visit, so column `k - 1` is visited next. -/
def correctRowAux (totalColumns : Nat) (row : List Bool) (k excess : Nat) :
    List Bool × Nat :=
  match k with
  | 0 => (row, excess)
  | k' + 1 =>
    if excess = 0 then (row, excess)
    else if isAisle totalColumns k' then correctRowAux totalColumns row k' excess
    else if row.getD k' false = false then
      correctRowAux totalColumns (row.set k' true) k' (excess - 1)
    else correctRowAux totalColumns row k' excess

/-- Outer loop of the excess correction (lines 588–601): walk rows from
the last backward while `excessSeats > 0`.  `n` is the count of rows
still to visit, so row `n - 1` is visited next. -/
def correctAux (totalColumns : Nat) (g : List (List Bool)) (n excess : Nat) :
    List (List Bool) :=
  match n with
  | 0 => g
  | n' + 1 =>
    if excess = 0 then g
    else
      let row := g.getD n' []
      let r := correctRowAux totalColumns row row.length excess
      correctAux totalColumns (g.set n' r.1) n' r.2

/-- `Flight::initializeSeatMap` (lines 521–603): build the raw grid,
recount available cells, and if the count exceeds `capacity` flip the
excess back to unavailable from the last row/column backward. -/
def initializeSeatMap (capacity : Nat) (l : Layout) : List (List Bool) :=
  let g := rawSeatMap capacity l
  let totalSeats := countAvailable l.totalColumns g
  if totalSeats > capacity then
    correctAux l.totalColumns g g.length (totalSeats - capacity)
  else g

/-- The seat-engine state of class `Flight` (lines 475–504): the fields
that the seat inventory reads and writes.  The identification and
schedule strings play no part in any claim and are omitted. -/
structure Flight where
  capacity : Nat
  availableSeats : Int
  seatsPerRow : Nat
  totalColumns : Nat
  seatMap : List (List Bool)
deriving DecidableEq, Repr

/-- The main `Flight` constructor (lines 492–504): store `capacity`, set
`availableSeats(capacity)`, then `calculateSeatLayout` and
`initializeSeatMap`. -/
def mkFlight (capacity : Nat) : Flight :=
  let l := calculateSeatLayout capacity
  { capacity := capacity
    availableSeats := (capacity : Int)
    seatsPerRow := l.seatsPerRow
    totalColumns := l.totalColumns
    seatMap := initializeSeatMap capacity l }

/-- `Flight::setCapacity` (lines 617–621): overwrite `capacity`, rerun
`calculateSeatLayout` and `initializeSeatMap`.  The source does not touch
`availableSeats` here, so the embedding leaves it unchanged. -/
def Flight.setCapacity (f : Flight) (cap : Nat) : Flight :=
  let l := calculateSeatLayout cap
  { f with
    capacity := cap
    seatsPerRow := l.seatsPerRow
    totalColumns := l.totalColumns
    seatMap := initializeSeatMap cap l }

/-- `Flight::seatNumberToIndices` (lines 627–662).  The outer catch
rewraps any inner exception with the prefix
`"Error parsing seat number: "`, so the messages below carry it.  The
inner catch at line 636 handles only `invalid_argument`; an
`out_of_range` from `stoi` escapes directly to the outer catch, which
wraps that exception's `what()` (libstdc++ reports `"stoi"`). -/
def seatNumberToIndices (totalColumns : Nat) (s : List Char) :
    Except Exc (Int × Int) :=
  if s.length < 2 then
    .error (.validation "Error parsing seat number: Invalid seat number format")
  else
    match stoi s.dropLast with
    | .error .invalidArgument =>
      .error (.validation "Error parsing seat number: Invalid row number in seat")
    | .error .outOfRange =>
      .error (.validation "Error parsing seat number: stoi")
    | .ok n =>
      let row : Int := n - 1
      let c := cppToUpper (s.getLastD ' ')
      if 'A' ≤ c ∧ c ≤ 'Z' then
        let col0 : Int := (c.toNat : Int) - ('A'.toNat : Int)
        let col : Int :=
          if totalColumns = 5 then (if col0 ≥ 2 then col0 + 1 else col0)
          else if totalColumns = 7 then (if col0 ≥ 3 then col0 + 1 else col0)
          else if totalColumns = 11 then
            (if col0 ≥ 3 ∧ col0 < 7 then col0 + 1
             else if col0 ≥ 7 then col0 + 2 else col0)
          else col0
        .ok (row, col)
      else
        .error (.validation "Error parsing seat number: Invalid column letter in seat")

/-- Decimal digits of `n`, most significant first, computed with fuel so
that the definition is structurally recursive; `natRepr` supplies enough
fuel and `natRepr_eq` below recovers the direct recurrence. -/
def natReprGo (fuel : Nat) (n : Nat) : List Char :=
  match fuel with
  | 0 => []
  | fuel + 1 =>
    if n < 10 then [Char.ofNat ('0'.toNat + n)]
    else natReprGo fuel (n / 10) ++ [Char.ofNat ('0'.toNat + n % 10)]

/-- Decimal digits of `n`, most significant first, as written by
`std::to_string` on a non-negative value. -/
def natRepr (n : Nat) : List Char := natReprGo (n + 1) n

/-- `std::to_string` on an `int`. -/
def intRepr (n : Int) : List Char :=
  if n < 0 then '-' :: natRepr n.natAbs else natRepr n.toNat

/-- `Flight::indicesToSeatNumber` (lines 664–677): undo the aisle shift,
then `to_string(row + 1) + ('A' + adjustedCol)`. -/
def indicesToSeatNumber (totalColumns : Nat) (row col : Int) : List Char :=
  let adjustedCol : Int :=
    if totalColumns = 5 then (if col > 2 then col - 1 else col)
    else if totalColumns = 7 then (if col > 3 then col - 1 else col)
    else if totalColumns = 11 then
      (if col > 3 ∧ col ≤ 8 then col - 1
       else if col > 8 then col - 2 else col)
    else col
  intRepr (row + 1) ++ [Char.ofNat ('A'.toNat + adjustedCol.toNat)]

/-- The aisle test on a decoded (possibly negative) column, as written in
`isSeatAvailable`/`cancelSeat` (lines 689–691 and 732–734). -/
def aisleCol (totalColumns : Nat) (col : Int) : Prop :=
  (totalColumns = 5 ∧ col = 2) ∨ (totalColumns = 7 ∧ col = 3) ∨
    (totalColumns = 11 ∧ (col = 3 ∨ col = 8))

instance (totalColumns : Nat) (col : Int) : Decidable (aisleCol totalColumns col) := by
  unfold aisleCol; infer_instance

/-- The bounds check of `isSeatAvailable`/`cancelSeat` (lines 685 and
728): `row < 0 || row >= seatMap.size() || col < 0 || col >= totalColumns`. -/
def outOfRange (f : Flight) (row col : Int) : Prop :=
  row < 0 ∨ (f.seatMap.length : Int) ≤ row ∨ col < 0 ∨ (f.totalColumns : Int) ≤ col

instance (f : Flight) (row col : Int) : Decidable (outOfRange f row col) := by
  unfold outOfRange; infer_instance

/-- Read cell `(row, col)` of the grid; total like the C++ access is after
its bounds check. -/
def cellAt (f : Flight) (row col : Int) : Bool :=
  (f.seatMap.getD row.toNat []).getD col.toNat false

/-- Write cell `(row, col)` of the grid. -/
def setCell (f : Flight) (row col : Int) (b : Bool) : Flight :=
  { f with seatMap :=
      f.seatMap.set row.toNat ((f.seatMap.getD row.toNat []).set col.toNat b) }

/-- Try-body of `Flight::isSeatAvailable` (lines 680–695): decode, bounds
check, aisle check, then return the negated occupancy flag. -/
def isSeatAvailableE (f : Flight) (s : List Char) : Except Exc Bool :=
  match seatNumberToIndices f.totalColumns s with
  | .error e => .error e
  | .ok (row, col) =>
    if outOfRange f row col then
      .error (.validation "Seat number out of range")
    else if aisleCol f.totalColumns col then
      .error (.validation "Cannot book an aisle")
    else
      .ok (!cellAt f row col)

/-- `Flight::isSeatAvailable` (lines 679–700): the try-body wrapped in
`catch { printErrorMessage("Error checking seat availability: " + e.what());
return false; }`.  The second component is the list of printed messages. -/
def isSeatAvailable (f : Flight) (s : List Char) : Bool × List String :=
  match isSeatAvailableE f s with
  | .ok b => (b, [])
  | .error e => (false, ["Error checking seat availability: " ++ excMessage e])

/-- Try-body of `Flight::bookSeat` (lines 703–715): the availability
check (through the catching `isSeatAvailable`, which yields `false` on
its own caught errors), a `BookingException` when it fails, then a second
decode and the cell write with the `availableSeats` decrement. -/
def bookSeatE (f : Flight) (s : List Char) : Except Exc Flight :=
  if !(isSeatAvailable f s).1 then
    .error (.booking ("Seat " ++ String.mk s ++ " is not available"))
  else
    match seatNumberToIndices f.totalColumns s with
    | .error e => .error e
    | .ok (row, col) =>
      .ok { setCell f row col true with availableSeats := f.availableSeats - 1 }

/-- `Flight::bookSeat` (lines 702–720): try-body plus the catch printing
`"Error booking seat: " + e.what()`.  The printed-message list also
carries what the inner `isSeatAvailable` call printed. -/
def bookSeat (f : Flight) (s : List Char) : Bool × Flight × List String :=
  let a := isSeatAvailable f s
  if !a.1 then
    (false, f, a.2 ++ ["Error booking seat: Seat " ++ String.mk s ++ " is not available"])
  else
    match seatNumberToIndices f.totalColumns s with
    | .error e => (false, f, a.2 ++ ["Error booking seat: " ++ excMessage e])
    | .ok (row, col) =>
      (true, { setCell f row col true with availableSeats := f.availableSeats - 1 }, a.2)

/-- Try-body of `Flight::cancelSeat` (lines 723–745): decode, bounds
check, aisle check, `BookingException` when the cell is already free,
else clear the cell and increment `availableSeats`. -/
def cancelSeatE (f : Flight) (s : List Char) : Except Exc Flight :=
  match seatNumberToIndices f.totalColumns s with
  | .error e => .error e
  | .ok (row, col) =>
    if outOfRange f row col then
      .error (.validation "Seat number out of range")
    else if aisleCol f.totalColumns col then
      .error (.validation "Cannot cancel an aisle")
    else if !cellAt f row col then
      .error (.booking ("Seat " ++ String.mk s ++ " is already available"))
    else
      .ok { setCell f row col false with availableSeats := f.availableSeats + 1 }

/-- `Flight::cancelSeat` (lines 722–750): try-body plus the catch
printing `"Error canceling seat: " + e.what()`. -/
def cancelSeat (f : Flight) (s : List Char) : Bool × Flight × List String :=
  match cancelSeatE f s with
  | .ok f2 => (true, f2, [])
  | .error e => (false, f, ["Error canceling seat: " ++ excMessage e])

/-- Well-formedness of a flight's grid: every row has `totalColumns`
cells, as `initializeSeatMap`'s `resize(totalColumns, ...)` guarantees
for every flight the program builds. -/
def Flight.wf (f : Flight) : Bool :=
  f.seatMap.all (fun r => r.length = f.totalColumns)

/-! ### List access helper lemmas -/

lemma getD_eq_getElem {α : Type} (l : List α) (i : Nat) (d : α) (h : i < l.length) :
    l.getD i d = l.get ⟨i, h⟩ := by
  rw [List.getD_eq_getElem?_getD, List.getElem?_eq_getElem h]
  rfl

lemma getD_of_length_le {α : Type} (l : List α) (i : Nat) (d : α) (h : l.length ≤ i) :
    l.getD i d = d := by
  rw [List.getD_eq_getElem?_getD, List.getElem?_eq_none h]
  rfl

lemma getD_set_ne {α : Type} (l : List α) (i j : Nat) (a d : α) (h : i ≠ j) :
    (l.set i a).getD j d = l.getD j d := by
  rw [List.getD_eq_getElem?_getD, List.getD_eq_getElem?_getD, List.getElem?_set_ne h]

lemma getD_set_self {α : Type} (l : List α) (i : Nat) (a d : α) (h : i < l.length) :
    (l.set i a).getD i d = a := by
  rw [List.getD_eq_getElem?_getD, List.getElem?_set_eq_of_lt a h]
  rfl

lemma getD_set_mono (l : List Bool) (i j : Nat) (h : l.getD j false = true) :
    (l.set i true).getD j false = true := by
  by_cases hij : i = j
  · subst hij
    by_cases hlen : i < l.length
    · exact getD_set_self l i true false hlen
    · rw [List.set_eq_of_length_le (by omega)]
      exact h
  · rw [getD_set_ne l i j true false hij]
    exact h

lemma getD_map_range {α : Type} (f : Nat → α) (n i : Nat) (d : α) (h : i < n) :
    ((List.range n).map f).getD i d = f i := by
  have hlen : i < ((List.range n).map f).length := by simpa using h
  rw [getD_eq_getElem _ _ _ hlen]
  simp

lemma takeWhile_eq_self_of_all (p : Char → Bool) (l : List Char)
    (h : ∀ c ∈ l, p c = true) : l.takeWhile p = l := by
  induction l with
  | nil => rfl
  | cons a l ih =>
    rw [List.takeWhile_cons, if_pos (h a (by simp))]
    rw [ih (fun c hc => h c (by simp [hc]))]

/-! ### Digit characters, `natRepr` and `stoi` -/

/-- The ten decimal digit characters. -/
def digitChars : List Char := ['0', '1', '2', '3', '4', '5', '6', '7', '8', '9']

lemma ofNat_digit_mem (d : Nat) (h : d < 10) : Char.ofNat ('0'.toNat + d) ∈ digitChars := by
  interval_cases d <;> decide

lemma digit_isDigit {c : Char} (h : c ∈ digitChars) : c.isDigit = true := by
  fin_cases h <;> decide

lemma digit_not_space {c : Char} (h : c ∈ digitChars) : isCppSpace c = false := by
  fin_cases h <;> decide

lemma digit_ne_minus {c : Char} (h : c ∈ digitChars) : ¬(c = '-') := by
  fin_cases h <;> decide

lemma digit_ne_plus {c : Char} (h : c ∈ digitChars) : ¬(c = '+') := by
  fin_cases h <;> decide

lemma digit_toNat (d : Nat) (h : d < 10) :
    (Char.ofNat ('0'.toNat + d)).toNat = '0'.toNat + d := by
  interval_cases d <;> decide

lemma natReprGo_congr (f1 : Nat) : ∀ (f2 n : Nat), n < f1 → n < f2 →
    natReprGo f1 n = natReprGo f2 n := by
  induction f1 with
  | zero => omega
  | succ f1 ih =>
    intro f2 n h1 h2
    cases f2 with
    | zero => omega
    | succ f2 =>
      show natReprGo (f1 + 1) n = natReprGo (f2 + 1) n
      rw [natReprGo, natReprGo]
      split
      · rfl
      · rename_i hn
        have hdiv : n / 10 < n := Nat.div_lt_self (by omega) (by omega)
        rw [ih f2 (n / 10) (by omega) (by omega)]

lemma natRepr_eq (n : Nat) : natRepr n =
    if n < 10 then [Char.ofNat ('0'.toNat + n)]
    else natRepr (n / 10) ++ [Char.ofNat ('0'.toNat + n % 10)] := by
  show natReprGo (n + 1) n = _
  rw [natReprGo]
  split
  · rfl
  · rename_i hn
    have hdiv : n / 10 < n := Nat.div_lt_self (by omega) (by omega)
    rw [natReprGo_congr n (n / 10 + 1) (n / 10) (by omega) (by omega)]
    rfl

lemma natRepr_mem (n : Nat) : ∀ c ∈ natRepr n, c ∈ digitChars := by
  induction n using Nat.strong_induction_on with
  | _ n ih =>
    rw [natRepr_eq]
    split
    · intro c hc
      rw [List.mem_singleton] at hc
      subst hc
      exact ofNat_digit_mem n (by omega)
    · rename_i hn
      intro c hc
      rw [List.mem_append] at hc
      rcases hc with h | h
      · exact ih (n / 10) (Nat.div_lt_self (by omega) (by omega)) c h
      · rw [List.mem_singleton] at h
        subst h
        exact ofNat_digit_mem (n % 10) (Nat.mod_lt n (by omega))

lemma natRepr_ne_nil (n : Nat) : natRepr n ≠ [] := by
  rw [natRepr_eq]
  split <;> simp

lemma digitsVal_append (l : List Char) (c : Char) :
    digitsVal (l ++ [c]) = digitsVal l * 10 + (c.toNat - '0'.toNat) := by
  unfold digitsVal
  rw [List.foldl_append]
  rfl

lemma digitsVal_natRepr (n : Nat) : digitsVal (natRepr n) = n := by
  induction n using Nat.strong_induction_on with
  | _ n ih =>
    rw [natRepr_eq]
    split
    · rename_i hn
      show digitsVal [Char.ofNat ('0'.toNat + n)] = n
      unfold digitsVal
      simp only [List.foldl_cons, List.foldl_nil, Nat.zero_mul, Nat.zero_add]
      rw [digit_toNat n hn]
      omega
    · rename_i hn
      rw [digitsVal_append, ih (n / 10) (Nat.div_lt_self (by omega) (by omega)),
        digit_toNat (n % 10) (Nat.mod_lt n (by omega))]
      omega

lemma stoi_natRepr (n : Nat) (hn : n ≤ 2147483647) : stoi (natRepr n) = .ok (n : Int) := by
  obtain ⟨d, rest, hcons⟩ : ∃ d rest, natRepr n = d :: rest := by
    cases h : natRepr n with
    | nil => exact absurd h (natRepr_ne_nil n)
    | cons d rest => exact ⟨d, rest, rfl⟩
  have hd : d ∈ digitChars := natRepr_mem n d (by rw [hcons]; exact List.mem_cons_self d rest)
  have hdw : List.dropWhile isCppSpace (natRepr n) = natRepr n := by
    rw [hcons, List.dropWhile_cons, if_neg (by rw [digit_not_space hd]; simp)]
  have hsd : stoiDigits (natRepr n) = some n := by
    unfold stoiDigits
    rw [takeWhile_eq_self_of_all Char.isDigit (natRepr n)
      (fun c hc => digit_isDigit (natRepr_mem n c hc))]
    simp only [List.isEmpty_iff, natRepr_ne_nil n, if_false, ite_false]
    rw [digitsVal_natRepr]
  have hhead : (natRepr n).headD ' ' = d := by rw [hcons]; rfl
  unfold stoi
  simp only [hdw, hhead]
  rw [if_neg (digit_ne_minus hd), if_neg (digit_ne_plus hd), hsd]
  show (if ((n : Nat) : Int) < cppIntMin ∨ cppIntMax < ((n : Nat) : Int) then
      (Except.error StoiExc.outOfRange : Except StoiExc Int)
    else Except.ok ((n : Nat) : Int)) = Except.ok ((n : Nat) : Int)
  rw [if_neg (by unfold cppIntMin cppIntMax; omega)]

/-! ### Codec helper lemmas -/

lemma letter_facts (a : Nat) (ha : a < 26) :
    cppToUpper (Char.ofNat ('A'.toNat + a)) = Char.ofNat ('A'.toNat + a) ∧
    ('A' ≤ Char.ofNat ('A'.toNat + a) ∧ Char.ofNat ('A'.toNat + a) ≤ 'Z') ∧
    (Char.ofNat ('A'.toNat + a)).toNat = 'A'.toNat + a := by
  interval_cases a <;> exact ⟨by decide, ⟨by decide, by decide⟩, by decide⟩

lemma intRepr_coe_succ (row : Nat) : intRepr ((row : Int) + 1) = natRepr (row + 1) := by
  unfold intRepr
  rw [if_neg (by omega)]
  congr 1

/-- Decoding a label made of the decimal digits of `row + 1` followed by
the `a`-th uppercase letter yields row `row` and the aisle-shifted column
of `a`, provided the 1-based row number fits in the `int` that `stoi`
returns. -/
lemma decode_natRepr_letter (tc row a : Nat) (ha : a < 26) (hr : row + 1 ≤ 2147483647) :
    seatNumberToIndices tc (natRepr (row + 1) ++ [Char.ofNat ('A'.toNat + a)]) =
      .ok ((row : Int),
        if tc = 5 then (if (a : Int) ≥ 2 then (a : Int) + 1 else (a : Int))
        else if tc = 7 then (if (a : Int) ≥ 3 then (a : Int) + 1 else (a : Int))
        else if tc = 11 then
          (if (a : Int) ≥ 3 ∧ (a : Int) < 7 then (a : Int) + 1
           else if (a : Int) ≥ 7 then (a : Int) + 2 else (a : Int))
        else (a : Int)) := by
  obtain ⟨hupper, ⟨hA, hZ⟩, htoNat⟩ := letter_facts a ha
  have hlen : ¬((natRepr (row + 1) ++ [Char.ofNat ('A'.toNat + a)]).length < 2) := by
    have h1 : 0 < (natRepr (row + 1)).length := List.length_pos.mpr (natRepr_ne_nil _)
    simp only [List.length_append, List.length_cons, List.length_nil]
    omega
  have hlast : (natRepr (row + 1) ++ [Char.ofNat ('A'.toNat + a)]).getLastD ' ' =
      Char.ofNat ('A'.toNat + a) := List.getLastD_concat _ _ _
  unfold seatNumberToIndices
  rw [if_neg hlen, List.dropLast_concat, stoi_natRepr (row + 1) hr]
  simp only [hlast, hupper]
  rw [if_pos ⟨hA, hZ⟩]
  simp only [htoNat]
  have hrow : ((row + 1 : Nat) : Int) - 1 = (row : Int) := by push_cast; ring
  have hcol0 : (('A'.toNat + a : Nat) : Int) - ('A'.toNat : Int) = (a : Int) := by push_cast; ring
  simp only [hrow, hcol0]

/-- No seat label ever decodes to an aisle column: the decode shift steps
over the aisle positions in every tier, so the aisle-rejection branches
of `isSeatAvailable` and `cancelSeat` are unreachable. -/
lemma decode_not_aisle (tc : Nat) (s : List Char) (row col : Int)
    (h : seatNumberToIndices tc s = .ok (row, col)) : ¬ aisleCol tc col := by
  simp only [seatNumberToIndices] at h
  split at h
  · exact absurd h (by simp)
  · split at h
    · exact absurd h (by simp)
    · exact absurd h (by simp)
    · rename_i n hn
      split at h
      · rename_i hc
        simp only [Except.ok.injEq, Prod.mk.injEq] at h
        obtain ⟨hrow, hcol⟩ := h
        subst hcol
        have h1 : 'A'.toNat ≤ (cppToUpper (s.getLastD ' ')).toNat := hc.1
        have h2 : (cppToUpper (s.getLastD ' ')).toNat ≤ 'Z'.toNat := hc.2
        have h65 : 'A'.toNat = 65 := rfl
        have h90 : 'Z'.toNat = 90 := rfl
        unfold aisleCol
        split_ifs <;> omega
      · exact absurd h (by simp)

/-! ### Grid structure helper lemmas -/

/-- Abbreviation for the row count of the grid for `capacity` and `l`. -/
def totalRowsFor (capacity : Nat) (l : Layout) : Nat :=
  capacity / (l.totalColumns - 1) + (if capacity % (l.totalColumns - 1) > 0 then 1 else 0)

lemma rawSeatMap_def (capacity : Nat) (l : Layout) :
    rawSeatMap capacity l =
      (List.range (totalRowsFor capacity l)).map (fun i =>
        if i = totalRowsFor capacity l - 1 ∧ capacity % (l.totalColumns - 1) > 0 then
          partialRow l.totalColumns l.seatsPerRow (capacity % (l.totalColumns - 1))
        else fullRow l.totalColumns) := rfl

lemma initializeSeatMap_def (capacity : Nat) (l : Layout) :
    initializeSeatMap capacity l =
      if countAvailable l.totalColumns (rawSeatMap capacity l) > capacity then
        correctAux l.totalColumns (rawSeatMap capacity l) (rawSeatMap capacity l).length
          (countAvailable l.totalColumns (rawSeatMap capacity l) - capacity)
      else rawSeatMap capacity l := rfl


lemma isAisle_lt {tc j : Nat} (h : isAisle tc j = true) : j < tc := by
  unfold isAisle at h
  simp only [Bool.or_eq_true, Bool.and_eq_true, beq_iff_eq] at h
  rcases h with ⟨h1, h2⟩ | ⟨h1, h2⟩ | ⟨h1, h2⟩ <;> omega

lemma fullRow_getD (tc j : Nat) (h : j < tc) : (fullRow tc).getD j false = isAisle tc j := by
  unfold fullRow
  exact getD_map_range (fun j => isAisle tc j) tc j false h

lemma correctRowAux_fst_getD_mono (tc : Nat) (k : Nat) : ∀ (row : List Bool) (excess j : Nat),
    row.getD j false = true → ((correctRowAux tc row k excess).1).getD j false = true := by
  induction k with
  | zero => intro row excess j h; exact h
  | succ k ih =>
    intro row excess j h
    unfold correctRowAux
    split
    · exact h
    · split
      · exact ih row excess j h
      · split
        · exact ih (row.set k true) (excess - 1) j (getD_set_mono row k j h)
        · exact ih row excess j h

lemma correctAux_getD_getD_mono (tc : Nat) (n : Nat) :
    ∀ (g : List (List Bool)) (excess i j : Nat),
    (g.getD i []).getD j false = true →
    ((correctAux tc g n excess).getD i []).getD j false = true := by
  induction n with
  | zero => intro g excess i j h; exact h
  | succ n ih =>
    intro g excess i j h
    unfold correctAux
    split
    · exact h
    · apply ih
      by_cases hin : n = i
      · subst hin
        by_cases hlen : n < g.length
        · rw [getD_set_self _ _ _ _ (by omega)]
          exact correctRowAux_fst_getD_mono tc _ _ _ j h
        · rw [List.set_eq_of_length_le (by omega)]
          exact h
      · rw [getD_set_ne _ _ _ _ _ hin]
        exact h

lemma correctAux_length (tc : Nat) (n : Nat) : ∀ (g : List (List Bool)) (excess : Nat),
    (correctAux tc g n excess).length = g.length := by
  induction n with
  | zero => intro g excess; rfl
  | succ n ih =>
    intro g excess
    unfold correctAux
    split
    · rfl
    · rw [ih]
      exact List.length_set g n _

lemma rawSeatMap_length (capacity : Nat) (l : Layout) :
    (rawSeatMap capacity l).length = totalRowsFor capacity l := by
  rw [rawSeatMap_def]
  simp

lemma initializeSeatMap_length (capacity : Nat) (l : Layout) :
    (initializeSeatMap capacity l).length = totalRowsFor capacity l := by
  rw [initializeSeatMap_def]
  split
  · rw [correctAux_length, rawSeatMap_length]
  · exact rawSeatMap_length capacity l

lemma rawSeatMap_getD_full (capacity : Nat) (l : Layout) (i : Nat)
    (hi : i < totalRowsFor capacity l)
    (hfull : i + 1 < totalRowsFor capacity l ∨ capacity % (l.totalColumns - 1) = 0) :
    (rawSeatMap capacity l).getD i [] = fullRow l.totalColumns := by
  rw [rawSeatMap_def]
  rw [getD_map_range _ _ _ _ hi]
  rw [if_neg (by omega)]

/-- Aisle cells of every non-partial row of the initialized grid are
flagged `true`. -/
lemma initializeSeatMap_aisle_full (capacity : Nat) (l : Layout) (i j : Nat)
    (hi : i < totalRowsFor capacity l)
    (hfull : i + 1 < totalRowsFor capacity l ∨ capacity % (l.totalColumns - 1) = 0)
    (hj : isAisle l.totalColumns j = true) :
    ((initializeSeatMap capacity l).getD i []).getD j false = true := by
  have hraw : ((rawSeatMap capacity l).getD i []).getD j false = true := by
    rw [rawSeatMap_getD_full capacity l i hi hfull, fullRow_getD _ _ (isAisle_lt hj), hj]
  rw [initializeSeatMap_def]
  split
  · exact correctAux_getD_getD_mono _ _ _ _ _ _ hraw
  · exact hraw


/-! ### Booking-operation helper lemmas -/

lemma setCell_totalColumns (f : Flight) (row col : Int) (b : Bool) :
    (setCell f row col b).totalColumns = f.totalColumns := rfl

lemma setCell_seatMap_length (f : Flight) (row col : Int) (b : Bool) :
    (setCell f row col b).seatMap.length = f.seatMap.length := by
  unfold setCell
  exact List.length_set _ _ _

lemma wf_row_length (f : Flight) (hwf : f.wf = true) (i : Nat) (hi : i < f.seatMap.length) :
    (f.seatMap.getD i []).length = f.totalColumns := by
  rw [getD_eq_getElem _ _ _ hi]
  have hmem : f.seatMap.get ⟨i, hi⟩ ∈ f.seatMap := List.get_mem f.seatMap _ _
  have := List.all_eq_true.mp hwf _ hmem
  simpa using this

lemma isSeatAvailableE_of_decode (f : Flight) (s : List Char) (row col : Int)
    (h : seatNumberToIndices f.totalColumns s = .ok (row, col)) :
    isSeatAvailableE f s =
      if outOfRange f row col then .error (.validation "Seat number out of range")
      else if aisleCol f.totalColumns col then .error (.validation "Cannot book an aisle")
      else .ok (!cellAt f row col) := by
  unfold isSeatAvailableE
  rw [h]

lemma cancelSeatE_of_decode (f : Flight) (s : List Char) (row col : Int)
    (h : seatNumberToIndices f.totalColumns s = .ok (row, col)) :
    cancelSeatE f s =
      if outOfRange f row col then .error (.validation "Seat number out of range")
      else if aisleCol f.totalColumns col then .error (.validation "Cannot cancel an aisle")
      else if !cellAt f row col then
        .error (.booking ("Seat " ++ String.mk s ++ " is already available"))
      else .ok { setCell f row col false with availableSeats := f.availableSeats + 1 } := by
  unfold cancelSeatE
  rw [h]

lemma isSeatAvailable_fst_true_iff (f : Flight) (s : List Char) :
    (isSeatAvailable f s).1 = true ↔ isSeatAvailableE f s = .ok true := by
  unfold isSeatAvailable
  split
  · rename_i b hb
    simp [hb]
  · rename_i e he
    simp [he]

lemma isSeatAvailable_fst_false_of_E (f : Flight) (s : List Char) (b : Bool)
    (h : isSeatAvailableE f s = .ok b) : (isSeatAvailable f s) = (b, []) := by
  unfold isSeatAvailable
  rw [h]

lemma isSeatAvailableE_ok_elim (f : Flight) (s : List Char) (b : Bool)
    (h : isSeatAvailableE f s = .ok b) :
    ∃ row col, seatNumberToIndices f.totalColumns s = .ok (row, col) ∧
      ¬outOfRange f row col ∧ ¬aisleCol f.totalColumns col ∧ b = !cellAt f row col := by
  unfold isSeatAvailableE at h
  split at h
  · exact absurd h (by simp)
  · rename_i p row col hdec
    split at h
    · exact absurd h (by simp)
    · split at h
      · exact absurd h (by simp)
      · rename_i hout hais
        exact ⟨row, col, hdec, hout, hais, by simpa using h.symm⟩

lemma bookSeatE_ok_elim (f f2 : Flight) (s : List Char) (h : bookSeatE f s = .ok f2) :
    isSeatAvailableE f s = .ok true ∧
    ∃ row col, seatNumberToIndices f.totalColumns s = .ok (row, col) ∧
      f2 = { setCell f row col true with availableSeats := f.availableSeats - 1 } := by
  unfold bookSeatE at h
  split at h
  · exact absurd h (by simp)
  · rename_i hav
    have hav1 : (isSeatAvailable f s).1 = true := by
      revert hav
      cases (isSeatAvailable f s).1 <;> simp
    refine ⟨(isSeatAvailable_fst_true_iff f s).mp hav1, ?_⟩
    split at h
    · exact absurd h (by simp)
    · rename_i p row col hdec
      exact ⟨row, col, hdec, by simpa using h.symm⟩

lemma bookSeatE_error_of_unavailable (f : Flight) (s : List Char)
    (h : (isSeatAvailable f s).1 = false) :
    bookSeatE f s = .error (.booking ("Seat " ++ String.mk s ++ " is not available")) := by
  unfold bookSeatE
  rw [h]
  rfl

lemma outOfRange_iff (g f : Flight) (row col : Int)
    (h1 : g.seatMap.length = f.seatMap.length) (h2 : g.totalColumns = f.totalColumns) :
    outOfRange g row col ↔ outOfRange f row col := by
  unfold outOfRange
  rw [h1, h2]

lemma cellAt_setCell_self (f : Flight) (row col : Int) (b : Bool)
    (hwf : f.wf = true)
    (hr0 : 0 ≤ row) (hr : row < (f.seatMap.length : Int))
    (hc0 : 0 ≤ col) (hc : col < (f.totalColumns : Int)) :
    cellAt (setCell f row col b) row col = b := by
  have hrn : row.toNat < f.seatMap.length := by omega
  have hrow : (f.seatMap.getD row.toNat []).length = f.totalColumns :=
    wf_row_length f hwf row.toNat hrn
  unfold cellAt setCell
  simp only
  rw [getD_set_self _ _ _ _ hrn]
  rw [getD_set_self _ _ _ _ (by omega)]

lemma double_book_fails (f f2 : Flight) (s : List Char) (hwf : f.wf = true)
    (h : bookSeatE f s = .ok f2) :
    bookSeatE f2 s = .error (.booking ("Seat " ++ String.mk s ++ " is not available")) := by
  obtain ⟨hok, row, col, hdec, hf2⟩ := bookSeatE_ok_elim f f2 s h
  obtain ⟨row', col', hdec', hout, hais, hb⟩ := isSeatAvailableE_ok_elim f s true hok
  rw [hdec] at hdec'
  simp only [Except.ok.injEq, Prod.mk.injEq] at hdec'
  obtain ⟨hr, hc⟩ := hdec'
  subst hr
  subst hc
  have hout4 : 0 ≤ row ∧ row < (f.seatMap.length : Int) ∧ 0 ≤ col ∧
      col < (f.totalColumns : Int) := by
    unfold outOfRange at hout
    push_neg at hout
    exact ⟨hout.1, hout.2.1, hout.2.2.1, hout.2.2.2⟩
  have htc : f2.totalColumns = f.totalColumns := by rw [hf2]; rfl
  have hlen : f2.seatMap.length = f.seatMap.length := by
    rw [hf2]
    exact setCell_seatMap_length f row col true
  have hcell : cellAt f2 row col = true := by
    rw [hf2]
    show cellAt (setCell f row col true) row col = true
    exact cellAt_setCell_self f row col true hwf hout4.1 hout4.2.1 hout4.2.2.1 hout4.2.2.2
  have hdec2 : seatNumberToIndices f2.totalColumns s = .ok (row, col) := by
    rw [htc]
    exact hdec
  apply bookSeatE_error_of_unavailable
  have hEfalse : isSeatAvailableE f2 s = .ok false := by
    rw [isSeatAvailableE_of_decode f2 s row col hdec2]
    rw [if_neg (by rw [outOfRange_iff f2 f row col hlen htc]; exact hout)]
    rw [htc, if_neg hais, hcell]
    rfl
  rw [isSeatAvailable_fst_false_of_E f2 s false hEfalse]

lemma cancel_free_fails (f : Flight) (s : List Char)
    (h : isSeatAvailableE f s = .ok true) :
    cancelSeatE f s = .error (.booking ("Seat " ++ String.mk s ++ " is already available")) := by
  obtain ⟨row, col, hdec, hout, hais, hb⟩ := isSeatAvailableE_ok_elim f s true h
  have hcell : cellAt f row col = false := by
    cases hc : cellAt f row col
    · rfl
    · rw [hc] at hb
      simp at hb
  rw [cancelSeatE_of_decode f s row col hdec, if_neg hout, if_neg hais, hcell]
  rfl

end Airline
namespace Airline

/-! ### Claim theorems -/

/-- C1 (code-bug evidence): for capacity 150 the constructor sets
`availableSeats` to 150 but the grid it builds holds only 135 available
non-aisle cells — the 11-column tier divides by `totalColumns - 1 = 10`
although a full row has only 9 real seats, and the correction step only
removes excess, never repairs a deficit.  The claim's conservation
property fails at capacity 150 (and 300, 853). -/
theorem seatCount_code_bug_capacity_150 :
    (mkFlight 150).availableSeats = 150 ∧
    countAvailable (mkFlight 150).totalColumns (mkFlight 150).seatMap = 135 ∧
    countAvailable (mkFlight 1).totalColumns (mkFlight 1).seatMap = 1 ∧
    countAvailable (mkFlight 2).totalColumns (mkFlight 2).seatMap = 2 ∧
    countAvailable (mkFlight 59).totalColumns (mkFlight 59).seatMap = 59 ∧
    countAvailable (mkFlight 60).totalColumns (mkFlight 60).seatMap = 60 ∧
    countAvailable (mkFlight 149).totalColumns (mkFlight 149).seatMap = 149 ∧
    countAvailable (mkFlight 300).totalColumns (mkFlight 300).seatMap = 270 ∧
    countAvailable (mkFlight 853).totalColumns (mkFlight 853).seatMap = 768 := by
  refine ⟨by decide, by decide, by decide, by decide, by decide, by decide, by decide,
    by decide, by decide⟩

/-- C2 (code-bug evidence): `setCapacity` rebuilds the layout and the
grid but never resets `availableSeats`, so after
`Flight(...,10,...).setCapacity(20)` the counter still reads 10 while the
new grid holds 20 available real cells — the claimed invariant is broken
by the `setCapacity` mutation. -/
theorem availableSeats_code_bug_setCapacity :
    ((mkFlight 10).setCapacity 20).availableSeats = 10 ∧
    countAvailable ((mkFlight 10).setCapacity 20).totalColumns
      ((mkFlight 10).setCapacity 20).seatMap = 20 := by
  constructor
  · decide
  · decide

/-- C6: the layout calculator is total and maps every capacity to exactly
one tier, with columns 5 below 60, 7 from 60 to 149, and 11 from 150 on;
in particular 59 ↦ 5, 60 ↦ 7, 149 ↦ 7, 150 ↦ 11. -/
theorem layout_tier_boundaries :
    (∀ capacity : Nat,
      ((calculateSeatLayout capacity).totalColumns = 5 ↔ capacity < 60) ∧
      ((calculateSeatLayout capacity).totalColumns = 7 ↔ 60 ≤ capacity ∧ capacity < 150) ∧
      ((calculateSeatLayout capacity).totalColumns = 11 ↔ 150 ≤ capacity)) ∧
    (calculateSeatLayout 59).totalColumns = 5 ∧
    (calculateSeatLayout 60).totalColumns = 7 ∧
    (calculateSeatLayout 149).totalColumns = 7 ∧
    (calculateSeatLayout 150).totalColumns = 11 := by
  refine ⟨fun capacity => ?_, by decide, by decide, by decide, by decide⟩
  unfold calculateSeatLayout
  split_ifs <;> first | (simp_all; omega) | simp_all

/-- C3 (counterexample to the claim as stated): on a failing label the
catching `isSeatAvailable` prints an error message itself and hands its
caller only the boolean `false` — no typed error reaches the caller, and
the core does print directly. -/
theorem isSeatAvailable_prints_on_error :
    isSeatAvailable (mkFlight 60) ['9', '9', '9', 'A'] =
      (false, ["Error checking seat availability: Seat number out of range"]) := by
  decide

/-- C3 (amended): the try-bodies of `isSeatAvailable`, `bookSeat` and
`cancelSeat` do raise typed Validation/Booking errors, but each function
catches them before returning: the caller receives `false` (with the
flight state unchanged for the mutators), and each failing call prints at
least one message through `printErrorMessage` instead of propagating the
typed error. -/
theorem ops_catch_and_print :
    ∀ (f : Flight) (s : List Char) (e : Exc),
      (isSeatAvailableE f s = .error e →
        isSeatAvailable f s =
          (false, ["Error checking seat availability: " ++ excMessage e])) ∧
      (bookSeatE f s = .error e →
        (bookSeat f s).1 = false ∧ (bookSeat f s).2.1 = f ∧ (bookSeat f s).2.2 ≠ []) ∧
      (cancelSeatE f s = .error e →
        cancelSeat f s = (false, f, ["Error canceling seat: " ++ excMessage e])) := by
  intro f s e
  refine ⟨?_, ?_, ?_⟩
  · intro h
    unfold isSeatAvailable
    rw [h]
  · intro h
    cases hava : (isSeatAvailable f s).1 with
    | false => simp [bookSeat, hava]
    | true =>
      unfold bookSeatE at h
      rw [hava] at h
      rw [if_neg (by simp)] at h
      cases hdec : seatNumberToIndices f.totalColumns s with
      | ok p =>
        rw [hdec] at h
        exact absurd h (by simp)
      | error e2 =>
        rw [hdec] at h
        simp [bookSeat, hava, hdec]
  · intro h
    unfold cancelSeat
    rw [h]

/-- C3 witness: instantiation of the amended theorem at a concrete
out-of-range label. -/
theorem ops_catch_and_print_witness :
    isSeatAvailable (mkFlight 60) ['0', 'A'] =
      (false, ["Error checking seat availability: " ++
        excMessage (.validation "Seat number out of range")]) :=
  (ops_catch_and_print (mkFlight 60) ['0', 'A']
    (.validation "Seat number out of range")).1 (by decide)

/-- C4: booking an already-booked seat fails with a BookingError in the
try-body, as does cancelling an already-free seat; concretely on a fresh
capacity-60 flight, booking "1A" succeeds taking `availableSeats` from 60
to 59, a second booking of "1A" raises the BookingError, cancelling "1A"
restores 60, and a second cancel raises the BookingError. -/
theorem booking_lifecycle :
    (∀ (f f2 : Flight) (s : List Char), f.wf = true → bookSeatE f s = .ok f2 →
      bookSeatE f2 s = .error (.booking ("Seat " ++ String.mk s ++ " is not available"))) ∧
    (∀ (f : Flight) (s : List Char), isSeatAvailableE f s = .ok true →
      cancelSeatE f s = .error (.booking ("Seat " ++ String.mk s ++ " is already available"))) ∧
    ((mkFlight 60).availableSeats = 60 ∧
      (bookSeat (mkFlight 60) ['1', 'A']).1 = true ∧
      (bookSeat (mkFlight 60) ['1', 'A']).2.2 = [] ∧
      (bookSeat (mkFlight 60) ['1', 'A']).2.1.availableSeats = 59 ∧
      bookSeatE ((bookSeat (mkFlight 60) ['1', 'A']).2.1) ['1', 'A'] =
        .error (.booking "Seat 1A is not available") ∧
      (cancelSeat ((bookSeat (mkFlight 60) ['1', 'A']).2.1) ['1', 'A']).1 = true ∧
      (cancelSeat ((bookSeat (mkFlight 60) ['1', 'A']).2.1) ['1', 'A']).2.1.availableSeats = 60 ∧
      cancelSeatE
          ((cancelSeat ((bookSeat (mkFlight 60) ['1', 'A']).2.1) ['1', 'A']).2.1) ['1', 'A'] =
        .error (.booking "Seat 1A is already available")) :=
  ⟨fun f f2 s hwf h => double_book_fails f f2 s hwf h,
   fun f s h => cancel_free_fails f s h,
   by decide⟩

/-- C4 witness: the double-booking clause applied to the concrete
capacity-60 flight and seat "1A". -/
theorem booking_lifecycle_witness :
    bookSeatE ((bookSeat (mkFlight 60) ['1', 'A']).2.1) ['1', 'A'] =
      .error (.booking ("Seat " ++ String.mk ['1', 'A'] ++ " is not available")) :=
  booking_lifecycle.1 (mkFlight 60) ((bookSeat (mkFlight 60) ['1', 'A']).2.1) ['1', 'A']
    (by decide) (by decide)

/-- C5 (counterexample to the claim as stated): the spec's example label
"1D" on the 7-column tier does not map to the aisle column — the decode
shift turns letter D into grid column 4 — so `isSeatAvailable("1D")`
raises nothing and reports the seat available on a fresh capacity-60
flight. -/
theorem label_1D_reports_available :
    isSeatAvailable (mkFlight 60) ['1', 'D'] = (true, []) ∧
    seatNumberToIndices (mkFlight 60).totalColumns ['1', 'D'] = .ok (0, 4) := by
  constructor
  · decide
  · decide

/-- C5 (amended): for every label that decodes, an out-of-range decoded
coordinate raises ValidationError "Seat number out of range"; the
aisle-rejection branch is unreachable because no label decodes to an
aisle column; every in-range decode returns the negation of the cell's
occupied flag. -/
theorem isSeatAvailable_error_spec :
    (∀ (f : Flight) (s : List Char) (row col : Int),
        seatNumberToIndices f.totalColumns s = .ok (row, col) →
        (outOfRange f row col →
          isSeatAvailableE f s = .error (.validation "Seat number out of range")) ∧
        ¬ aisleCol f.totalColumns col ∧
        (¬ outOfRange f row col → isSeatAvailableE f s = .ok (!cellAt f row col))) ∧
    isSeatAvailableE (mkFlight 60) ['1', 'D'] = .ok true := by
  refine ⟨fun f s row col hdec =>
    ⟨?_, decode_not_aisle f.totalColumns s row col hdec, ?_⟩, by decide⟩
  · intro hout
    rw [isSeatAvailableE_of_decode f s row col hdec, if_pos hout]
  · intro hout
    rw [isSeatAvailableE_of_decode f s row col hdec, if_neg hout,
      if_neg (decode_not_aisle f.totalColumns s row col hdec)]

/-- C5 witness: the out-of-range clause applied to label "999A" on the
capacity-60 flight. -/
theorem isSeatAvailable_error_spec_witness :
    isSeatAvailableE (mkFlight 60) ['9', '9', '9', 'A'] =
      .error (.validation "Seat number out of range") :=
  ((isSeatAvailable_error_spec.1 (mkFlight 60) ['9', '9', '9', 'A'] 998 0
    (by decide)).1 (by decide))

/-- C10: when validation fails — the label does not decode, or decodes
out of range, or (hypothetically) to an aisle — `bookSeat` and
`cancelSeat` return `false` and leave the whole flight, grid and
`availableSeats` included, unchanged. -/
theorem failed_validation_no_mutation :
    ∀ (f : Flight) (s : List Char) (m : String),
      (isSeatAvailableE f s = .error (.validation m) →
        (bookSeat f s).1 = false ∧ (bookSeat f s).2.1 = f) ∧
      (cancelSeatE f s = .error (.validation m) →
        (cancelSeat f s).1 = false ∧ (cancelSeat f s).2.1 = f) := by
  intro f s m
  constructor
  · intro h
    have ha : isSeatAvailable f s =
        (false, ["Error checking seat availability: " ++ excMessage (.validation m)]) := by
      unfold isSeatAvailable
      rw [h]
    constructor <;> simp [bookSeat, ha]
  · intro h
    constructor <;> simp [cancelSeat, h]

/-- C10 witness: label "0A" decodes to row −1, fails the bounds check,
and leaves the capacity-60 flight untouched. -/
theorem failed_validation_no_mutation_witness :
    (bookSeat (mkFlight 60) ['0', 'A']).1 = false ∧
      (bookSeat (mkFlight 60) ['0', 'A']).2.1 = mkFlight 60 :=
  (failed_validation_no_mutation (mkFlight 60) ['0', 'A'] "Seat number out of range").1
    (by decide)

/-- C7: for every capacity the program can store in its `int` capacity
field, every non-aisle coordinate of the grid that `initializeSeatMap`
builds for it round-trips through the codec: decoding the encoded label
returns the same coordinate.  The `INT_MAX` bound on the capacity
mirrors its C++ type and is needed because `stoi` faithfully raises
`out_of_range` on 1-based row numbers beyond `INT_MAX`, which only
grids of non-`int`-representable capacities could reach. -/
theorem codec_round_trip :
    ∀ (capacity row col : Nat),
      capacity ≤ 2147483647 →
      row < (initializeSeatMap capacity (calculateSeatLayout capacity)).length →
      col < (calculateSeatLayout capacity).totalColumns →
      isAisle (calculateSeatLayout capacity).totalColumns col = false →
      seatNumberToIndices (calculateSeatLayout capacity).totalColumns
          (indicesToSeatNumber (calculateSeatLayout capacity).totalColumns
            (row : Int) (col : Int)) =
        .ok ((row : Int), (col : Int)) := by
  intro capacity row col hcap hrow hcol hais
  have hrow1 : row + 1 ≤ 2147483647 := by
    rw [initializeSeatMap_length] at hrow
    have h5 : 5 ≤ (calculateSeatLayout capacity).totalColumns := by
      unfold calculateSeatLayout
      split_ifs <;> simp
    have hb : totalRowsFor capacity (calculateSeatLayout capacity) ≤
        capacity / ((calculateSeatLayout capacity).totalColumns - 1) + 1 := by
      unfold totalRowsFor
      split <;> omega
    have hdd : capacity / ((calculateSeatLayout capacity).totalColumns - 1) ≤ capacity / 4 :=
      Nat.div_le_div_left (by omega) (by omega)
    have hq : capacity / 4 ≤ 2147483647 / 4 := Nat.div_le_div_right hcap
    omega
  have htc : (calculateSeatLayout capacity).totalColumns = 5 ∨
      (calculateSeatLayout capacity).totalColumns = 7 ∨
      (calculateSeatLayout capacity).totalColumns = 11 := by
    unfold calculateSeatLayout
    split_ifs <;> simp
  rcases htc with htc | htc | htc <;> rw [htc] at hcol hais ⊢ <;>
    [interval_cases col; interval_cases col; interval_cases col] <;>
    first
    | exact absurd hais (by decide)
    | (simp only [indicesToSeatNumber]
       rw [intRepr_coe_succ]
       exact (decode_natRepr_letter _ row _ (by norm_num) hrow1).trans (by norm_num))

/-- C7 witness: the round trip at capacity 60, row 0, column 0. -/
theorem codec_round_trip_witness :
    seatNumberToIndices (calculateSeatLayout 60).totalColumns
        (indicesToSeatNumber (calculateSeatLayout 60).totalColumns
          ((0 : Nat) : Int) ((0 : Nat) : Int)) =
      .ok (((0 : Nat) : Int), ((0 : Nat) : Int)) :=
  codec_round_trip 60 0 0 (by decide) (by decide) (by decide) (by decide)

/-- C8 (counterexample to the claim as stated): the label "0A", whose row
part "0" is an integer but not a positive one, is accepted by decode — it
returns row −1 and column 0 instead of raising ValidationError.  (`stoi`
parses any integer prefix; positivity is never checked.) -/
theorem decode_accepts_nonpositive_row :
    seatNumberToIndices 7 ['0', 'A'] = .ok (-1, 0) := by
  decide

/-- C8 (amended): decode raises ValidationError exactly when the label is
shorter than 2 characters, or `stoi` fails on the part before the last
character (`invalid_argument` when no leading integer follows the
optional whitespace and sign, `out_of_range` when the parsed value does
not fit in `int` — the inner catch handles only `invalid_argument`, so
`out_of_range` reaches the outer catch and is rewrapped as a
ValidationError too), or the uppercased last character is not a letter
A–Z; every label whose row part `stoi` accepts yields row = parsed
value − 1 (the value of the longest sign-and-digit prefix, zero and
negatives included) and the aisle-shifted column of the letter.
Concretely, "9999999999A" overflows `int` and is rejected. -/
theorem decode_error_characterization :
    (∀ (tc : Nat) (s : List Char),
      ((∃ m, seatNumberToIndices tc s = .error (.validation m)) ↔
        (s.length < 2 ∨ (∃ e, stoi s.dropLast = .error e) ∨
          ¬('A' ≤ cppToUpper (s.getLastD ' ') ∧ cppToUpper (s.getLastD ' ') ≤ 'Z'))) ∧
      (∀ n : Int, 2 ≤ s.length → stoi s.dropLast = .ok n →
        'A' ≤ cppToUpper (s.getLastD ' ') → cppToUpper (s.getLastD ' ') ≤ 'Z' →
        seatNumberToIndices tc s =
          .ok (n - 1,
            let col0 : Int :=
              ((cppToUpper (s.getLastD ' ')).toNat : Int) - ('A'.toNat : Int)
            if tc = 5 then (if col0 ≥ 2 then col0 + 1 else col0)
            else if tc = 7 then (if col0 ≥ 3 then col0 + 1 else col0)
            else if tc = 11 then
              (if col0 ≥ 3 ∧ col0 < 7 then col0 + 1
               else if col0 ≥ 7 then col0 + 2 else col0)
            else col0))) ∧
    stoi ['9', '9', '9', '9', '9', '9', '9', '9', '9', '9'] = .error .outOfRange ∧
    seatNumberToIndices 7 ['9', '9', '9', '9', '9', '9', '9', '9', '9', '9', 'A'] =
      .error (.validation "Error parsing seat number: stoi") := by
  refine ⟨?_, by decide, by decide⟩
  intro tc s
  by_cases hlen : s.length < 2
  · constructor
    · constructor
      · intro _
        exact Or.inl hlen
      · intro _
        unfold seatNumberToIndices
        rw [if_pos hlen]
        exact ⟨_, rfl⟩
    · intro n h2
      omega
  · cases hst : stoi s.dropLast with
    | error e =>
      constructor
      · constructor
        · intro _
          exact Or.inr (Or.inl ⟨e, rfl⟩)
        · intro _
          unfold seatNumberToIndices
          rw [if_neg hlen, hst]
          cases e
          · exact ⟨_, rfl⟩
          · exact ⟨_, rfl⟩
      · intro n _ hsome
        exact absurd hsome (by simp)
    | ok n0 =>
      by_cases hc : 'A' ≤ cppToUpper (s.getLastD ' ') ∧ cppToUpper (s.getLastD ' ') ≤ 'Z'
      · have hok : seatNumberToIndices tc s =
            .ok (n0 - 1,
              let col0 : Int :=
                ((cppToUpper (s.getLastD ' ')).toNat : Int) - ('A'.toNat : Int)
              if tc = 5 then (if col0 ≥ 2 then col0 + 1 else col0)
              else if tc = 7 then (if col0 ≥ 3 then col0 + 1 else col0)
              else if tc = 11 then
                (if col0 ≥ 3 ∧ col0 < 7 then col0 + 1
                 else if col0 ≥ 7 then col0 + 2 else col0)
              else col0) := by
          unfold seatNumberToIndices
          rw [if_neg hlen, hst]
          simp only [if_pos hc]
        constructor
        · constructor
          · intro hm
            obtain ⟨m, hm⟩ := hm
            rw [hok] at hm
            exact absurd hm (by simp)
          · intro hdisj
            rcases hdisj with h | h | h
            · omega
            · obtain ⟨e, he⟩ := h
              exact absurd he (by simp)
            · exact absurd hc h
        · intro n _ hsome _ _
          have hn : (n0 : Int) = n := by simpa using hsome
          rw [← hn]
          exact hok
      · have herr : seatNumberToIndices tc s =
            .error (.validation "Error parsing seat number: Invalid column letter in seat") := by
          unfold seatNumberToIndices
          rw [if_neg hlen, hst]
          simp only [if_neg hc]
        constructor
        · constructor
          · intro _
            exact Or.inr (Or.inr hc)
          · intro _
            exact ⟨_, herr⟩
        · intro n _ _ hA hZ
          exact absurd ⟨hA, hZ⟩ hc

/-- C8 witness: the acceptance clause applied to the well-formed label
"12C" on the 7-column tier: row 11, column 2. -/
theorem decode_error_characterization_witness :
    seatNumberToIndices 7 ['1', '2', 'C'] = .ok (11, 2) :=
  ((decode_error_characterization.1 7 ['1', '2', 'C']).2 12
    (by decide) (by decide) (by decide) (by decide)).trans (by decide)

/-- C9 (counterexample to the claim as stated): in the capacity-59 grid
the final partial row leaves its aisle column unflagged — row 14,
column 2 (the 5-column tier's aisle) carries `false`, not the claimed
occupied/unavailable flag. -/
theorem partial_row_aisle_unflagged :
    14 < (initializeSeatMap 59 (calculateSeatLayout 59)).length ∧
    isAisle (calculateSeatLayout 59).totalColumns 2 = true ∧
    ((initializeSeatMap 59 (calculateSeatLayout 59)).getD 14 []).getD 2 true = false := by
  refine ⟨by decide, by decide, by decide⟩

/-- C9 (amended): aisle cells of every non-partial row are flagged
occupied; the final partial row may leave them unflagged; independently
of any flag, aisle columns are never addressable as bookable seats: no
label ever decodes to an aisle column. -/
theorem aisle_flags_and_unaddressable :
    (∀ (capacity i j : Nat),
        i < (initializeSeatMap capacity (calculateSeatLayout capacity)).length →
        (i + 1 < (initializeSeatMap capacity (calculateSeatLayout capacity)).length ∨
          capacity % ((calculateSeatLayout capacity).totalColumns - 1) = 0) →
        isAisle (calculateSeatLayout capacity).totalColumns j = true →
        ((initializeSeatMap capacity (calculateSeatLayout capacity)).getD i []).getD j false
          = true) ∧
    (∀ (f : Flight) (s : List Char) (row col : Int),
        seatNumberToIndices f.totalColumns s = .ok (row, col) →
        ¬ aisleCol f.totalColumns col) := by
  constructor
  · intro capacity i j hi hfull hj
    rw [initializeSeatMap_length] at hi hfull
    exact initializeSeatMap_aisle_full capacity _ i j hi hfull hj
  · intro f s row col h
    exact decode_not_aisle f.totalColumns s row col h

/-- C9 witness: a full-row aisle cell of the capacity-60 grid is flagged
occupied. -/
theorem aisle_flags_and_unaddressable_witness :
    ((initializeSeatMap 60 (calculateSeatLayout 60)).getD 0 []).getD 3 false = true :=
  aisle_flags_and_unaddressable.1 60 0 3 (by decide) (by decide) (by decide)

end Airline
